import Mathlib

/-!
Verification of the Visual ERP Frontend core layer: the enhanced API client
(`src/lib/api-enhanced.js`, class `EnhancedAPIService`), the session manager
(`AuthProvider` in the auth component file), and the quote-form submission
logic (`src/components/QuoteCRUD.jsx`).

The JavaScript is shallowly embedded: JSON values become the inductive
`JSVal`, the nondeterministic outcomes of `fetch` become an oracle
(`Nat → FetchOutcome`, one outcome per attempt number), and the mutable
singleton state of `EnhancedAPIService` becomes the explicit record
`ClientState` threaded through the functions.  Time is not modelled; the
`setTimeout` back-off waits are recorded as the list of delay durations (in
milliseconds) taken between attempts, in order.
-/

namespace VisualErp

/-- JavaScript/JSON values as manipulated by the client.  `jnull` stands for
both `null` and `undefined` (both are falsy and neither carries data the
client reads).  Numbers are rationals, which cover every numeric literal in
the source exactly. -/
inductive JSVal where
  | jnull : JSVal
  | jbool : Bool → JSVal
  | jnum  : Rat → JSVal
  | jstr  : String → JSVal
  | jarr  : List JSVal → JSVal
  | jobj  : List (String × JSVal) → JSVal

/-- JavaScript truthiness of a value (as used by `if (response.token)`,
`response.success ? … : …`, etc.). -/
def truthy : JSVal → Bool
  | .jnull => false
  | .jbool b => b
  | .jnum q => q != 0
  | .jstr s => s != ""
  | .jarr _ => true
  | .jobj _ => true

/-- Property access `v.k`: `some` when `v` is an object carrying field `k`. -/
def getField : JSVal → String → Option JSVal
  | .jobj fs, k => fs.lookup k
  | _, _ => none

/-- Property access `v.k` where a missing field reads as `undefined`
(modelled by `jnull`, which is falsy like `undefined`). -/
def getFieldD (v : JSVal) (k : String) : JSVal :=
  (getField v k).getD .jnull

/-- `pat` is a prefix of `s`, on character lists. -/
def charsHasPref : List Char → List Char → Bool
  | [], _ => true
  | _ :: _, [] => false
  | p :: ps, c :: cs => p == c && charsHasPref ps cs

/-- `pat` occurs as a contiguous substring of `s`, on character lists. -/
def charsContains (pat : List Char) : List Char → Bool
  | [] => charsHasPref pat []
  | c :: cs => charsHasPref pat (c :: cs) || charsContains pat cs

/-- `s.includes(pat)` as used by the retry loop on the literals
`'401'`/`'403'`: true when `pat` occurs as a substring of `s`. -/
def containsSubstr (s pat : String) : Bool :=
  charsContains pat.data s.data

/-- A failed `fetch` attempt inside `makeRequest`: either the `fetch` promise
itself rejects (network error) or the response arrives with `!response.ok`,
carrying its numeric status, the optional `message` field of the parsed error
body (`errorData.message`, `none` when the body fails to parse to an object
with that field), and the response's `statusText`. -/
inductive FetchErr where
  | netErr  : String → FetchErr
  | httpErr : Nat → Option String → String → FetchErr
  deriving DecidableEq

/-- Outcome of one `fetch` + `response.json()` round inside the retry loop of
`makeRequest`: parsed data on a 2xx response, or a `FetchErr`. -/
abbrev FetchOutcome := Except FetchErr JSVal

/-- The message of the `Error` thrown for a failed attempt.  For an HTTP
error this is
`` `HTTP error! status: ${response.status}, message: ${errorData.message || response.statusText}` ``
(JavaScript `||` falls back to `statusText` when `message` is absent or the
empty string); for a rejected fetch it is that rejection's own message. -/
def errMessage : FetchErr → String
  | .netErr m => m
  | .httpErr status message statusText =>
      "HTTP error! status: " ++ toString status ++ ", message: " ++
        (match message with
         | some m => if m = "" then statusText else m
         | none => statusText)

/-- A request sitting in the offline queue (`this.requestQueue`): the built
url together with the config captured at queue time. -/
structure QueuedReq where
  url : String
  method : Option String
  body : Option String
  headers : List (String × String)
  deriving DecidableEq

/-- The `options` argument of `makeRequest`.  `method` is `none` when the
caller passes no `method` key (as every read helper in the file does), which
JavaScript sees as `undefined`. -/
structure ReqOptions where
  method : Option String
  body : Option String
  headers : List (String × String)
  deriving DecidableEq

/-- The mutable fields of the `EnhancedAPIService` singleton that the
request path reads or writes. -/
structure ClientState where
  baseURL : String
  apiKey : String
  retryAttempts : Nat
  retryDelay : Nat
  requestQueue : List QueuedReq
  isOnline : Bool
  deriving DecidableEq

/-- The constructor of `EnhancedAPIService`:
`baseURL = import.meta.env.VITE_API_URL || 'http://localhost:3000'`,
`apiKey = import.meta.env.VITE_API_KEY || ''`, `retryAttempts = 3`,
`retryDelay = 1000`, empty queue, `isOnline = navigator.onLine`. -/
def initialClientState (apiURLEnv apiKeyEnv : Option String) (online : Bool) :
    ClientState :=
  { baseURL := match apiURLEnv with
      | some s => if s = "" then "http://localhost:3000" else s
      | none => "http://localhost:3000"
    apiKey := match apiKeyEnv with
      | some s => s
      | none => ""
    retryAttempts := 3
    retryDelay := 1000
    requestQueue := []
    isOnline := online }

/-- Header construction in `makeRequest`'s `config`:
`'Content-Type': 'application/json'`, plus
`Authorization: Bearer <apiKey>` when `this.apiKey` is truthy (non-empty),
then the caller's own headers. -/
def buildHeaders (apiKey : String) (extra : List (String × String)) :
    List (String × String) :=
  [("Content-Type", "application/json")] ++
    (if apiKey = "" then [] else [("Authorization", "Bearer " ++ apiKey)]) ++
    extra

/-- The result of the retry loop of `makeRequest` once it runs (i.e. when the
request was not queued): parsed data returned, or an error thrown. -/
inductive ReqResult where
  | success : JSVal → ReqResult
  | thrown  : String → ReqResult

/-- Trace of the retry loop: how many `fetch` attempts were made, the
back-off delays (ms) awaited between attempts in order, and the final
outcome. -/
structure AttemptTrace where
  attempts : Nat
  delays : List Nat
  result : ReqResult

/-- The `for (let attempt = 1; attempt <= this.retryAttempts; attempt++)`
loop of `makeRequest`.  `fuel` is the number of loop iterations still
allowed (`makeRequest` starts it at `retryAttempts` with `attempt = 1`);
`lastErr` is the `lastError` variable (`"undefined"` before any attempt).
On a caught error the loop rethrows immediately when the message contains
`'401'` or `'403'`; otherwise, when `attempt < retryAttempts`, it awaits
`this.retryDelay * attempt` milliseconds and retries; after the final
attempt the loop exits and `lastError` is thrown. -/
def runAttempts (rA rD : Nat) (oracle : Nat → FetchOutcome) :
    Nat → Nat → String → AttemptTrace
  | 0, _, lastErr => ⟨0, [], .thrown lastErr⟩
  | fuel + 1, attempt, _lastErr =>
    match oracle attempt with
    | .ok data => ⟨1, [], .success data⟩
    | .error e =>
      let msg := errMessage e
      if containsSubstr msg "401" || containsSubstr msg "403" then
        ⟨1, [], .thrown msg⟩
      else if attempt < rA then
        let rest := runAttempts rA rD oracle fuel (attempt + 1) msg
        ⟨rest.attempts + 1, rD * attempt :: rest.delays, rest.result⟩
      else
        ⟨1, [], .thrown msg⟩

/-- Result of `makeRequest`: either the request was appended to the offline
queue and a pending promise handle returned (`trace = none`, `pending`),
or the retry loop ran and produced a trace.  `newQueue` is the queue after
the call. -/
structure MakeReqOut where
  pending : Bool
  newQueue : List QueuedReq
  trace : Option AttemptTrace

/-- `makeRequest(endpoint, options)`: builds `url = baseURL + endpoint` and
the config with merged headers; if `!this.isOnline && options.method !==
'GET'` the request is queued via `queueRequest` (note: a caller that passes
no `method` key leaves `options.method` as `undefined`, and
`undefined !== 'GET'` is true); otherwise the retry loop runs. -/
def makeRequest (st : ClientState) (endpoint : String) (opts : ReqOptions)
    (oracle : Nat → FetchOutcome) : MakeReqOut :=
  let url := st.baseURL ++ endpoint
  if !st.isOnline && opts.method != some "GET" then
    { pending := true
      newQueue := st.requestQueue ++
        [{ url := url, method := opts.method, body := opts.body,
           headers := buildHeaders st.apiKey opts.headers }]
      trace := none }
  else
    { pending := false
      newQueue := st.requestQueue
      trace := some (runAttempts st.retryAttempts st.retryDelay oracle
        st.retryAttempts 1 "undefined") }

/-- `getMockProducts()`: the static fallback product dataset, an envelope
`{success: true, products: [...]}` with three products.  The
`createdAt`/`updatedAt` fields are `new Date().toISOString()`; the current
time's ISO string is passed in as `nowISO`. -/
def getMockProducts (nowISO : String) : JSVal :=
  .jobj [("success", .jbool true),
    ("products", .jarr [
      .jobj [("id", .jnum 1),
        ("name", .jstr "Premium Hemp Flower - Strain A"),
        ("sku", .jstr "HF-001"),
        ("status", .jstr "Active"),
        ("stockOnHand", .jnum 275),
        ("batches", .jnum 2),
        ("category", .jstr "Hemp Flower"),
        ("price", .jnum 45),
        ("cost", .jnum 25),
        ("description", .jstr "High-quality hemp flower with excellent terpene profile"),
        ("imageUrl", .jnull),
        ("createdAt", .jstr nowISO),
        ("updatedAt", .jstr nowISO)],
      .jobj [("id", .jnum 2),
        ("name", .jstr "CBD Oil Tincture - 1000mg"),
        ("sku", .jstr "CBD-1000"),
        ("status", .jstr "Active"),
        ("stockOnHand", .jnum 150),
        ("batches", .jnum 3),
        ("category", .jstr "CBD Products"),
        ("price", .jnum (8999 / 100 : Rat)),
        ("cost", .jnum 35),
        ("description", .jstr "Full-spectrum CBD oil tincture"),
        ("imageUrl", .jnull),
        ("createdAt", .jstr nowISO),
        ("updatedAt", .jstr nowISO)],
      .jobj [("id", .jnum 3),
        ("name", .jstr "Hemp Gummies - Mixed Berry"),
        ("sku", .jstr "HG-MB-25"),
        ("status", .jstr "Active"),
        ("stockOnHand", .jnum 89),
        ("batches", .jnum 1),
        ("category", .jstr "Edibles"),
        ("price", .jnum (3499 / 100 : Rat)),
        ("cost", .jnum 12),
        ("description", .jstr "Delicious hemp-infused gummies"),
        ("imageUrl", .jnull),
        ("createdAt", .jstr nowISO),
        ("updatedAt", .jstr nowISO)]])]

/-- `new URLSearchParams(filters).toString()` restricted to the plain
alphanumeric keys and values this client passes (no percent-encoding is ever
needed for them): `k1=v1&k2=v2&…`. -/
def queryStringOf (filters : List (String × String)) : String :=
  String.intercalate "&" (filters.map (fun p => p.1 ++ "=" ++ p.2))

/-- What a caller of an async list method observes: `pendingQueue` when the
underlying `makeRequest` queued the request (the awaited promise is still
unresolved), otherwise the settled value. -/
inductive CallOut where
  | pendingQueue : CallOut
  | value : JSVal → CallOut

/-- `getProducts(filters)`: builds the endpoint with an optional query
string and no `options` argument (so `options.method` is `undefined`); on a
resolved response returns `response.success ? response :
{success: true, products: response}`; on a thrown error it logs and returns
`this.getMockProducts()` — unconditionally, with no check of `baseURL` or
`apiKey`. -/
def getProducts (st : ClientState) (filters : List (String × String))
    (oracle : Nat → FetchOutcome) (nowISO : String) : CallOut :=
  let qs := queryStringOf filters
  let endpoint := "/api/inventory/products" ++ (if qs = "" then "" else "?" ++ qs)
  match (makeRequest st endpoint ⟨none, none, []⟩ oracle).trace with
  | none => .pendingQueue
  | some t =>
    match t.result with
    | .success resp =>
        .value (if truthy (getFieldD resp "success") then resp
                else .jobj [("success", .jbool true), ("products", resp)])
    | .thrown _ => .value (getMockProducts nowISO)

/-- Outcome of the single `fetch` + `response.json()` performed for one
queued request during `processQueue`: the fetch promise rejects, or a
response arrives (with its `ok` flag and status) whose body parse either
yields data or throws. -/
inductive ReplayFetch where
  | netErr : String → ReplayFetch
  | response : Bool → Nat → Except String JSVal → ReplayFetch

/-- How `processQueue` settles one queued request's pending promise:
`resolve(data)` whenever `fetch` and `response.json()` both succeed — the
`ok` flag and status are never consulted and there is no retry — and
`reject(error)` exactly when the fetch or the body parse throws. -/
def settleReplay : ReplayFetch → Except String JSVal
  | .netErr m => .error m
  | .response _ok _status body => body

/-- `processQueue()`: drains the queue front-to-back (`shift()`), replaying
each request with one `fetch` and settling its stored promise handles via
`settleReplay`; a rejection settles only that request and the loop
continues.  The result lists each request with its settlement, in replay
order. -/
def processQueue (fetchFn : QueuedReq → ReplayFetch) :
    List QueuedReq → List (QueuedReq × Except String JSVal)
  | [] => []
  | q :: rest => (q, settleReplay (fetchFn q)) :: processQueue fetchFn rest

mutual

/-- `JSON.stringify` as used to persist the user record.  String escaping is
omitted: no value this client serializes contains quotes, backslashes or
control characters.  (Number formatting differs from JavaScript for
non-integers, but only object/string user records are ever serialized.) -/
def stringify : JSVal → String
  | .jnull => "null"
  | .jbool true => "true"
  | .jbool false => "false"
  | .jnum q => toString q
  | .jstr s => "\x22" ++ s ++ "\x22"
  | .jarr xs => "[" ++ stringifyItems xs ++ "]"
  | .jobj fs => "\x7b" ++ stringifyProps fs ++ "\x7d"

/-- Comma-separated serialization of array elements. -/
def stringifyItems : List JSVal → String
  | [] => ""
  | [v] => stringify v
  | v :: w :: rest => stringify v ++ "," ++ stringifyItems (w :: rest)

/-- Comma-separated serialization of object properties. -/
def stringifyProps : List (String × JSVal) → String
  | [] => ""
  | [(k, v)] => "\x22" ++ k ++ "\x22:" ++ stringify v
  | (k, v) :: p :: rest =>
      "\x22" ++ k ++ "\x22:" ++ stringify v ++ "," ++ stringifyProps (p :: rest)

end

/-- The two durable-storage keys the session layer owns:
`localStorage['visual_erp_token']` and `localStorage['visual_erp_user']`
(`none` = key absent, `getItem` returns `null`). -/
structure Storage where
  token : Option String
  user : Option String
  deriving DecidableEq

/-- The React state owned by `AuthProvider`: `isAuthenticated`, `user`
(the parsed user record) and `error`.  (`isLoading` is UI-only and not
modelled.) -/
structure SessionState where
  isAuthenticated : Bool
  user : Option JSVal
  error : Option String

/-- The combined session world: durable storage, the Resource Client's
installed token (`apiService.apiKey`) and the provider's React state. -/
structure World where
  storage : Storage
  apiKey : String
  session : SessionState

/-- The world at process start with empty storage: anonymous session,
no installed token. -/
def initialWorld : World :=
  { storage := { token := none, user := none }
    apiKey := ""
    session := { isAuthenticated := false, user := none, error := none } }

/-- The message thrown by `login` when the authenticate response lacks a
token or a user record. -/
def invalidResponseMsg : String := "Invalid response from authentication server"

/-- Result of `AuthProvider.login`: the world afterwards and the returned
`{success, error?}` value. -/
structure LoginOut where
  world : World
  success : Bool
  error : Option String

/-- `AuthProvider.login(credentials)` given the outcome of its
`apiService.authenticate(credentials)` call.  The provider imports
`api.js`, whose `authenticate` simply returns
`this.request('/api/auth/login', {method: 'POST', body})` and never touches
the installed token, so the outcome is just the resolved response body or
the thrown error's message.  If the response carries a truthy `token` and a
truthy `user`, both are persisted (`visual_erp_token` ← token,
`visual_erp_user` ← `JSON.stringify(user)`), the token is installed into
the client, and the state becomes authenticated; otherwise
`Invalid response from authentication server` is thrown.  The surrounding
catch runs `setError(error.message || 'Login failed')` and returns
`{success: false, error: error.message}`; on every non-success path the
installed token and storage are untouched.  Tokens are modelled as JSON
strings (every token this system produces or stores is a string). -/
def login (w : World) (outcome : Except String JSVal) : LoginOut :=
  match outcome with
  | .error m =>
      { world := { w with
                   session := { w.session with
                                error := some (if m = "" then "Login failed"
                                               else m) } }
        success := false
        error := some m }
  | .ok resp =>
      match getField resp "token", getField resp "user" with
      | some (.jstr t), some u =>
          if t ≠ "" ∧ truthy u then
            { world :=
                { storage := { token := some t, user := some (stringify u) }
                  apiKey := t
                  session := { isAuthenticated := true
                               user := some u
                               error := none } }
              success := true
              error := none }
          else
            { world := { w with
                         session := { w.session with
                                      error := some invalidResponseMsg } }
              success := false
              error := some invalidResponseMsg }
      | _, _ =>
          { world := { w with
                       session := { w.session with
                                    error := some invalidResponseMsg } }
            success := false
            error := some invalidResponseMsg }

/-- `AuthProvider.logout()`: removes both storage keys, clears the installed
token, and resets the state to anonymous — synchronously, with no network
call. -/
def logout (_w : World) : World :=
  { storage := { token := none, user := none }
    apiKey := ""
    session := { isAuthenticated := false, user := none, error := none } }

/-- `AuthProvider.checkAuthStatus()` given the `success` flag of the
`testConnection()` probe and `JSON.parse` (a platform primitive, passed in
as `parse`): when storage holds a truthy token and user, a successful probe
restores the authenticated session and installs the stored token into the
client; a failed probe removes both storage keys together and records
`Session expired. Please log in again.` (leaving `apiKey` untouched);
with incomplete storage nothing changes except `setError(null)`. -/
def checkAuthStatus (parse : String → JSVal) (w : World) (probeOk : Bool) :
    World :=
  match w.storage.token, w.storage.user with
  | some t, some uStr =>
      if t ≠ "" ∧ uStr ≠ "" then
        if probeOk then
          { w with
              apiKey := t
              session := { isAuthenticated := true, user := some (parse uStr),
                           error := none } }
        else
          { w with
              storage := { token := none, user := none }
              session := { w.session with
                           error := some "Session expired. Please log in again." } }
      else
        { w with session := { w.session with error := none } }
  | _, _ => { w with session := { w.session with error := none } }

/-- `EnhancedAPIService.refreshToken()` given the outcome of its
`makeRequest('/api/auth/refresh', …)` call: on a response with a truthy
token, the token is installed and written to `visual_erp_token` (the stored
user is untouched); on a thrown error both storage keys are removed and the
installed token is cleared before rethrowing. -/
def refreshToken (storage : Storage) (apiKey : String)
    (outcome : Except String JSVal) : Storage × String × Except String JSVal :=
  match outcome with
  | .ok resp =>
      match getField resp "token" with
      | some (.jstr t) =>
          if t = "" then (storage, apiKey, .ok resp)
          else ({ storage with token := some t }, t, .ok resp)
      | _ => (storage, apiKey, .ok resp)
  | .error m => (⟨none, none⟩, "", .error m)

/-- The spec's storage-pairing invariant, as a decidable check: a stored
user record implies a non-empty stored token. -/
def storageOk (s : Storage) : Bool :=
  match s.user with
  | none => true
  | some _ =>
      match s.token with
      | some t => t != ""
      | none => false

/-- One line item of the quote form
(`formData.lineItems` in `QuoteCRUD.jsx`). -/
structure LineItem where
  productId : Option Rat
  productName : String
  quantity : Rat
  unitPrice : Rat
  deriving DecidableEq

/-- The quote form state (`formData` plus a possible stale `total` field
left over in the object being spread, which `handleSubmit` must override). -/
structure QuoteForm where
  title : String
  customerId : String
  status : String
  validUntil : String
  lineItems : List LineItem
  staleTotal : Option Rat
  deriving DecidableEq

/-- The client-side total:
`formData.lineItems.reduce((sum, item) => sum + (item.quantity * item.unitPrice), 0)`. -/
def computeTotal (items : List LineItem) : Rat :=
  items.foldl (fun sum item => sum + item.quantity * item.unitPrice) 0

/-- The payload `handleSubmit` sends. -/
structure QuoteData where
  title : String
  customerId : Int
  status : String
  validUntil : String
  lineItems : List LineItem
  total : Rat
  deriving DecidableEq

/-- `parseInt(formData.customerId)` for the decimal id strings this form
holds. -/
def parseIntJS (s : String) : Int :=
  (s.toInt?).getD 0

/-- The `quoteData` object built in `handleSubmit`:
`{...formData, customerId: parseInt(formData.customerId), total: <recomputed>}`
— the spread puts `total` last, so the recomputed value overrides any stale
`total` in the form state. -/
def buildQuoteData (form : QuoteForm) : QuoteData :=
  { title := form.title
    customerId := parseIntJS form.customerId
    status := form.status
    validUntil := form.validUntil
    lineItems := form.lineItems
    total := computeTotal form.lineItems }

/-! ### Helper lemmas about the retry loop and the queue -/

/-- When the client is online the request is never queued: the retry loop
runs, starting at attempt 1 with `retryAttempts` iterations available. -/
theorem makeRequest_online (st : ClientState) (ep : String) (opts : ReqOptions)
    (oracle : Nat → FetchOutcome) (hon : st.isOnline = true) :
    makeRequest st ep opts oracle =
      { pending := false
        newQueue := st.requestQueue
        trace := some (runAttempts st.retryAttempts st.retryDelay oracle
          st.retryAttempts 1 "undefined") } := by
  simp [makeRequest, hon]

/-- A successful fetch returns its parsed data at once: one attempt, no
delay. -/
theorem runAttempts_ok (rA rD fuel attempt : Nat) (oracle : Nat → FetchOutcome)
    (data : JSVal) (lastErr : String) (h : oracle attempt = .ok data) :
    runAttempts rA rD oracle (fuel + 1) attempt lastErr =
      ⟨1, [], .success data⟩ := by
  simp [runAttempts, h]

/-- An attempt whose error message carries `'401'` or `'403'` is rethrown at
once: one attempt, no delay. -/
theorem runAttempts_auth (rA rD fuel attempt : Nat) (oracle : Nat → FetchOutcome)
    (e : FetchErr) (lastErr : String) (h : oracle attempt = .error e)
    (hauth : (containsSubstr (errMessage e) "401" ||
      containsSubstr (errMessage e) "403") = true) :
    runAttempts rA rD oracle (fuel + 1) attempt lastErr =
      ⟨1, [], .thrown (errMessage e)⟩ := by
  simp [runAttempts, h, hauth]

/-- A non-auth failure on a non-final attempt awaits `rD * attempt` and
retries. -/
theorem runAttempts_retry (rA rD fuel attempt : Nat) (oracle : Nat → FetchOutcome)
    (e : FetchErr) (lastErr : String) (h : oracle attempt = .error e)
    (hna : (containsSubstr (errMessage e) "401" ||
      containsSubstr (errMessage e) "403") = false)
    (hlt : attempt < rA) :
    runAttempts rA rD oracle (fuel + 1) attempt lastErr =
      ⟨(runAttempts rA rD oracle fuel (attempt + 1) (errMessage e)).attempts + 1,
       rD * attempt ::
         (runAttempts rA rD oracle fuel (attempt + 1) (errMessage e)).delays,
       (runAttempts rA rD oracle fuel (attempt + 1) (errMessage e)).result⟩ := by
  simp [runAttempts, h, hna, hlt]

/-- A non-auth failure on the final attempt surfaces as the thrown
`lastError`: no further delay. -/
theorem runAttempts_final (rA rD fuel attempt : Nat) (oracle : Nat → FetchOutcome)
    (e : FetchErr) (lastErr : String) (h : oracle attempt = .error e)
    (hna : (containsSubstr (errMessage e) "401" ||
      containsSubstr (errMessage e) "403") = false)
    (hge : ¬ attempt < rA) :
    runAttempts rA rD oracle (fuel + 1) attempt lastErr =
      ⟨1, [], .thrown (errMessage e)⟩ := by
  simp [runAttempts, h, hna, hge]

/-- If every attempt the loop can reach fails, the loop ends in a thrown
error (never in data). -/
theorem runAttempts_result_thrown (rA rD : Nat) (oracle : Nat → FetchOutcome)
    (es : Nat → FetchErr) (h : ∀ i, oracle i = .error (es i)) :
    ∀ fuel attempt lastErr,
      ∃ m, (runAttempts rA rD oracle fuel attempt lastErr).result = .thrown m := by
  intro fuel
  induction fuel with
  | zero => intro attempt lastErr; exact ⟨lastErr, rfl⟩
  | succ n ih =>
    intro attempt lastErr
    simp only [runAttempts, h attempt]
    by_cases hauth : (containsSubstr (errMessage (es attempt)) "401" ||
        containsSubstr (errMessage (es attempt)) "403") = true
    · simp only [hauth, if_true]
      exact ⟨_, rfl⟩
    · rw [Bool.not_eq_true] at hauth
      simp only [hauth, Bool.false_eq_true, if_false]
      by_cases hlt : attempt < rA
      · simp only [hlt, if_true]
        exact ih (attempt + 1) (errMessage (es attempt))
      · simp only [hlt, if_false]
        exact ⟨_, rfl⟩

/-- `processQueue` distributes over queue concatenation. -/
theorem processQueue_append (fetchFn : QueuedReq → ReplayFetch)
    (l1 l2 : List QueuedReq) :
    processQueue fetchFn (l1 ++ l2) =
      processQueue fetchFn l1 ++ processQueue fetchFn l2 := by
  induction l1 with
  | nil => simp [processQueue]
  | cons q rest ih => simp [processQueue, ih]

/-- `processQueue` settles exactly the queued requests, in queue order. -/
theorem processQueue_requests (fetchFn : QueuedReq → ReplayFetch)
    (qs : List QueuedReq) :
    (processQueue fetchFn qs).map Prod.fst = qs := by
  induction qs with
  | nil => rfl
  | cons q rest ih => simp [processQueue, ih]

/-! ### Helper lemmas about the session layer -/

/-- `login` preserves the storage-pairing invariant: every path either
writes token and serialized user together or leaves storage untouched. -/
theorem login_preserves_pairing (w : World) (out : Except String JSVal)
    (hw : storageOk w.storage = true) :
    storageOk (login w out).world.storage = true := by
  cases out with
  | error m => simpa [login] using hw
  | ok resp =>
    unfold login
    simp only
    split
    · next t u _ =>
      split
      · next hcond => simp [storageOk, hcond.1]
      · simpa using hw
    · simpa using hw

/-- `checkAuthStatus` preserves the storage-pairing invariant: on probe
failure both keys are removed together, otherwise storage is untouched. -/
theorem checkAuthStatus_preserves_pairing (parse : String → JSVal) (w : World)
    (probeOk : Bool) (hw : storageOk w.storage = true) :
    storageOk (checkAuthStatus parse w probeOk).storage = true := by
  unfold checkAuthStatus
  split
  · split
    · split
      · simpa using hw
      · simp [storageOk]
    · simpa using hw
  · simpa using hw

/-- `refreshToken` preserves the storage-pairing invariant: a refreshed
token is non-empty and replaces the stored one, and on failure both keys
are removed together. -/
theorem refreshToken_preserves_pairing (st : Storage) (key : String)
    (out : Except String JSVal) (hst : storageOk st = true) :
    storageOk (refreshToken st key out).1 = true := by
  cases out with
  | error m => simp [refreshToken, storageOk]
  | ok resp =>
    unfold refreshToken
    simp only
    split
    · next t _ =>
      split
      · simpa using hst
      · next ht =>
        cases hu : st.user with
        | none => simp [storageOk, hu]
        | some s => simp [storageOk, hu, ht]
    · simpa using hst

/-- A login response carrying a token but no user record takes the
`Invalid response` path: storage, the authenticated flag and the installed
token are all untouched; only the error message is recorded. -/
theorem login_token_no_user (w : World) (t : String) :
    login w (.ok (.jobj [("token", .jstr t)])) =
      { world := { w with
                   session := { w.session with
                                error := some invalidResponseMsg } }
        success := false
        error := some invalidResponseMsg } := by
  unfold login
  simp [getField, List.lookup]

/-- The startup check with complete stored credentials and a failed probe
removes both storage keys together and records the session-expired message
— but writes nothing to the Resource Client: `apiService.apiKey` keeps its
prior value. -/
theorem checkAuthStatus_probe_failure (parse : String → JSVal) (w : World)
    (t uStr : String) (hst : w.storage = ⟨some t, some uStr⟩)
    (ht : ¬ t = "") (hu : ¬ uStr = "") :
    checkAuthStatus parse w false =
      { w with
        storage := ⟨none, none⟩
        session := { w.session with
                     error := some "Session expired. Please log in again." } } := by
  unfold checkAuthStatus
  rw [hst]
  simp [ht, hu]

/-! ### Claim C1 -/

/-- Claim C1 (code-bug evaluation): a read issued while offline is NOT sent
normally.  `getProducts` calls `makeRequest(endpoint)` with no `options`, so
`options.method` is `undefined` and `options.method !== 'GET'` holds; the
offline guard therefore appends the read to the offline queue, returns a
pending handle and performs zero fetch attempts — contradicting the claim
that only mutations are queued while reads go out normally. -/
theorem c1_offline_read_is_queued :
    (makeRequest (initialClientState none none false) "/api/inventory/products"
        ⟨none, none, []⟩ (fun _ => .error (.netErr "offline"))).pending = true
    ∧ (makeRequest (initialClientState none none false) "/api/inventory/products"
        ⟨none, none, []⟩ (fun _ => .error (.netErr "offline"))).newQueue
      = [⟨"http://localhost:3000/api/inventory/products", none, none,
          [("Content-Type", "application/json")]⟩]
    ∧ (makeRequest (initialClientState none none false) "/api/inventory/products"
        ⟨none, none, []⟩ (fun _ => .error (.netErr "offline"))).trace = none :=
  ⟨rfl, rfl, rfl⟩

/-! ### Claim C2 -/

/-- Claim C2 (counterexample): `getProducts` against a client configured
with a real (non-loopback) base URL and a configured token, whose fetches
all fail, returns the mock dataset (a `{success: true, …}` envelope) —
it neither rejects nor returns `{success: false}`, so mock substitution is
not gated on a loopback URL or an absent credential. -/
theorem c2_counterexample :
    getProducts (initialClientState (some "https://erp.example.com")
        (some "real-key") true) []
        (fun _ => .error (.netErr "fetch failed")) "2024-01-01T00:00:00.000Z"
      = .value (getMockProducts "2024-01-01T00:00:00.000Z")
    ∧ truthy (getFieldD (getMockProducts "2024-01-01T00:00:00.000Z") "success")
      = true :=
  ⟨rfl, rfl⟩

/-- Claim C2 (amended): `getProducts` substitutes the mock dataset whenever
its request ends in a thrown error, for EVERY configured base URL and
credential — the loopback/no-token gate exists only in `testConnection`'s
mock-mode report, not on this read path. -/
theorem c2_mock_on_any_thrown_read (url key : Option String)
    (filters : List (String × String)) (oracle : Nat → FetchOutcome)
    (es : Nat → FetchErr) (now : String)
    (h : ∀ i, oracle i = .error (es i)) :
    getProducts (initialClientState url key true) filters oracle now
      = .value (getMockProducts now) := by
  obtain ⟨m, hm⟩ := runAttempts_result_thrown 3 1000 oracle es h 3 1 "undefined"
  simp only [getProducts, makeRequest, initialClientState, Bool.not_true,
    Bool.false_and, Bool.false_eq_true, if_false]
  rw [hm]

/-- Witness for `c2_mock_on_any_thrown_read` at a concrete real-URL,
keyed client whose network is down. -/
theorem c2_mock_witness :
    getProducts (initialClientState (some "https://api.erp.example") (some "k")
        true) [] (fun _ => .error (.netErr "connection refused")) "T"
      = .value (getMockProducts "T") :=
  c2_mock_on_any_thrown_read (some "https://api.erp.example") (some "k") []
    (fun _ => .error (.netErr "connection refused"))
    (fun _ => .netErr "connection refused") "T" (fun _ => rfl)

/-! ### Claim C3 -/

/-- Claim C3 (counterexample): an HTTP 400 response is NOT surfaced after
one attempt — the retry guard only checks the message for `'401'`/`'403'`,
so a 400 is retried like a transient failure: three attempts with back-off
delays of 1000 ms and 2000 ms before the error surfaces. -/
theorem c3_counterexample :
    (makeRequest (initialClientState none none true) "/api/customers"
        ⟨none, none, []⟩
        (fun _ => .error (.httpErr 400 none "Bad Request"))).trace
      = some ⟨3, [1000 * 1, 1000 * 2],
          .thrown "HTTP error! status: 400, message: Bad Request"⟩ :=
  rfl

/-- Claim C3 (amended): only failures whose error message contains `'401'`
or `'403'` skip the retry loop, surfacing after exactly one attempt with no
back-off delay; 400 and 404 responses are retried like transient failures
(three attempts, linear delays), as the 404 conjunct shows. -/
theorem c3_auth_codes_only (url key : Option String) (ep : String)
    (opts : ReqOptions) (oracle : Nat → FetchOutcome) (e : FetchErr)
    (h1 : oracle 1 = .error e)
    (hauth : (containsSubstr (errMessage e) "401" ||
      containsSubstr (errMessage e) "403") = true) :
    (makeRequest (initialClientState url key true) ep opts oracle).trace
      = some ⟨1, [], .thrown (errMessage e)⟩
    ∧ (makeRequest (initialClientState none none true) ep opts
        (fun _ => .error (.httpErr 404 none "Not Found"))).trace
      = some ⟨3, [1000 * 1, 1000 * 2],
          .thrown "HTTP error! status: 404, message: Not Found"⟩ := by
  constructor
  · simp only [makeRequest, initialClientState, Bool.not_true, Bool.false_and,
      Bool.false_eq_true, if_false]
    simp [runAttempts, h1, hauth]
  · rfl

/-- Witness for `c3_auth_codes_only`: a 401 response surfaces after one
attempt with no delay, while a 404 on the same endpoint is retried three
times. -/
theorem c3_auth_codes_witness :
    (makeRequest (initialClientState none none true) "/api/auth/login"
        ⟨some "POST", none, []⟩
        (fun _ => .error (.httpErr 401 none "Unauthorized"))).trace
      = some ⟨1, [], .thrown "HTTP error! status: 401, message: Unauthorized"⟩
    ∧ (makeRequest (initialClientState none none true) "/api/auth/login"
        ⟨some "POST", none, []⟩
        (fun _ => .error (.httpErr 404 none "Not Found"))).trace
      = some ⟨3, [1000 * 1, 1000 * 2],
          .thrown "HTTP error! status: 404, message: Not Found"⟩ :=
  c3_auth_codes_only none none "/api/auth/login" ⟨some "POST", none, []⟩
    (fun _ => .error (.httpErr 401 none "Unauthorized"))
    (.httpErr 401 none "Unauthorized") rfl (by decide)

/-! ### Claim C4 -/

/-- Claim C4: when all attempts fail transiently (no `'401'`/`'403'` in any
message), the request is attempted exactly `retryAttempts = 3` times before
the final error surfaces, and the delays awaited between consecutive
attempts are `attempt × retryDelay` with `retryDelay = 1000` ms (1000 ms
after attempt 1, 2000 ms after attempt 2) — two delays for three attempts,
none before the first. -/
theorem c4_transient_linear_retry (url key : Option String) (ep : String)
    (opts : ReqOptions) (oracle : Nat → FetchOutcome) (e1 e2 e3 : FetchErr)
    (h1 : oracle 1 = .error e1) (h2 : oracle 2 = .error e2)
    (h3 : oracle 3 = .error e3)
    (n1 : (containsSubstr (errMessage e1) "401" ||
      containsSubstr (errMessage e1) "403") = false)
    (n2 : (containsSubstr (errMessage e2) "401" ||
      containsSubstr (errMessage e2) "403") = false)
    (n3 : (containsSubstr (errMessage e3) "401" ||
      containsSubstr (errMessage e3) "403") = false) :
    (makeRequest (initialClientState url key true) ep opts oracle).trace
      = some ⟨3, [1000 * 1, 1000 * 2], .thrown (errMessage e3)⟩ := by
  simp only [makeRequest, initialClientState, Bool.not_true, Bool.false_and,
    Bool.false_eq_true, if_false]
  simp [runAttempts, h1, h2, h3, n1, n2, n3]

/-- Witness for `c4_transient_linear_retry`: a client with a real URL whose
fetches all reject with a network error makes exactly three attempts with
delays 1000 ms and 2000 ms. -/
theorem c4_transient_witness :
    (makeRequest (initialClientState (some "https://erp.example.com") none
        true) "/api/health" ⟨none, none, []⟩
        (fun _ => .error (.netErr "Network error"))).trace
      = some ⟨3, [1000 * 1, 1000 * 2], .thrown "Network error"⟩ :=
  c4_transient_linear_retry (some "https://erp.example.com") none "/api/health"
    ⟨none, none, []⟩ (fun _ => .error (.netErr "Network error"))
    (.netErr "Network error") (.netErr "Network error") (.netErr "Network error")
    rfl rfl rfl (by decide) (by decide) (by decide)

/-! ### Claim C5 -/

/-- Claim C5 (counterexample): the installed-token sync conjunct is not
preserved by the startup check.  In the pre-state the invariant holds — the
stored token `"abc"` and user are paired and the Resource Client's installed
token equals `"abc"` — but when the reachability probe reports the token
invalid, `checkAuthStatus` removes both storage keys and records the
session-expired message without ever writing `apiService.apiKey`: the
installed token stays `"abc"` while the Session Manager holds no token at
all. -/
theorem c5_counterexample :
    checkAuthStatus (fun _ => .jnull)
        { storage := ⟨some "abc", some "\x7b\x22username\x22:\x22t\x22\x7d"⟩
          apiKey := "abc"
          session := { isAuthenticated := false, user := none, error := none } }
        false
      = { storage := ⟨none, none⟩
          apiKey := "abc"
          session := { isAuthenticated := false, user := none,
                       error := some "Session expired. Please log in again." } } :=
  rfl

/-- Claim C5 (amended): the storage-pairing half of the invariant holds — a
stored user record implies a non-empty stored token, preserved by login,
logout, the startup check and token refresh (token and user are written or
cleared together) — and a login response carrying a token but no user
record does leave the installed token unchanged (storage and the
authenticated flag too), as claimed.  But the installed-token sync is not
preserved by the startup check: with complete stored credentials and a
failed probe, both storage keys are cleared together while the installed
token keeps its prior value, leaving a stale installed token beside an
anonymous session. -/
theorem c5_pairing_and_stale_token (w : World) (out : Except String JSVal)
    (parse : String → JSVal) (probeOk : Bool) (st : Storage)
    (key t uStr : String) (hw : storageOk w.storage = true)
    (hst : storageOk st = true) (ht : ¬ t = "") (hu : ¬ uStr = "") :
    storageOk (login w out).world.storage = true
    ∧ storageOk (logout w).storage = true
    ∧ storageOk (checkAuthStatus parse w probeOk).storage = true
    ∧ storageOk (refreshToken st key out).1 = true
    ∧ (login w (.ok (.jobj [("token", .jstr t)]))).world.storage = w.storage
    ∧ (login w (.ok (.jobj [("token", .jstr t)]))).world.session.isAuthenticated
        = w.session.isAuthenticated
    ∧ (login w (.ok (.jobj [("token", .jstr t)]))).world.apiKey = w.apiKey
    ∧ (checkAuthStatus parse { w with storage := ⟨some t, some uStr⟩ }
        false).storage = ⟨none, none⟩
    ∧ (checkAuthStatus parse { w with storage := ⟨some t, some uStr⟩ }
        false).apiKey = w.apiKey := by
  refine ⟨login_preserves_pairing w out hw, rfl,
    checkAuthStatus_preserves_pairing parse w probeOk hw,
    refreshToken_preserves_pairing st key out hst, ?_, ?_, ?_, ?_, ?_⟩
  · rw [login_token_no_user w t]
  · rw [login_token_no_user w t]
  · rw [login_token_no_user w t]
  · rw [checkAuthStatus_probe_failure parse _ t uStr rfl ht hu]
  · rw [checkAuthStatus_probe_failure parse _ t uStr rfl ht hu]

/-- Witness for `c5_pairing_and_stale_token` at the fresh world, a failing
authenticate call, empty storage, the token-only response `"abc"` and
stored credentials `"abc"`/`"u"`. -/
theorem c5_pairing_witness :
    storageOk (login initialWorld (.error "down")).world.storage = true
    ∧ storageOk (logout initialWorld).storage = true
    ∧ storageOk (checkAuthStatus (fun _ => .jnull) initialWorld true).storage
      = true
    ∧ storageOk (refreshToken ⟨none, none⟩ "" (.error "down")).1 = true
    ∧ (login initialWorld (.ok (.jobj [("token", .jstr "abc")]))).world.storage
      = initialWorld.storage
    ∧ (login initialWorld
        (.ok (.jobj [("token", .jstr "abc")]))).world.session.isAuthenticated
      = initialWorld.session.isAuthenticated
    ∧ (login initialWorld (.ok (.jobj [("token", .jstr "abc")]))).world.apiKey
      = initialWorld.apiKey
    ∧ (checkAuthStatus (fun _ => .jnull)
        { initialWorld with storage := ⟨some "abc", some "u"⟩ } false).storage
      = ⟨none, none⟩
    ∧ (checkAuthStatus (fun _ => .jnull)
        { initialWorld with storage := ⟨some "abc", some "u"⟩ } false).apiKey
      = initialWorld.apiKey :=
  c5_pairing_and_stale_token initialWorld (.error "down") (fun _ => .jnull)
    true ⟨none, none⟩ "" "abc" "u" rfl rfl (by decide) (by decide)

/-! ### Claim C6 -/

/-- Claim C6: draining the queue replays every queued request strictly in
enqueue (FIFO) order — the settled requests, in order, are exactly the
queue — and a failing replay rejects only that request's handle: the
requests before and after it are still replayed and settled exactly as they
would be on their own. -/
theorem c6_fifo_isolated_failure (fetchFn : QueuedReq → ReplayFetch)
    (pre post : List QueuedReq) (q : QueuedReq) (m : String)
    (hfail : settleReplay (fetchFn q) = .error m) :
    (processQueue fetchFn (pre ++ q :: post)).map Prod.fst = pre ++ q :: post
    ∧ processQueue fetchFn (pre ++ q :: post)
        = processQueue fetchFn pre ++
            (q, .error m) :: processQueue fetchFn post := by
  refine ⟨processQueue_requests fetchFn (pre ++ q :: post), ?_⟩
  rw [processQueue_append]
  simp [processQueue, hfail]

/-- Witness for `c6_fifo_isolated_failure`: three queued mutations where the
middle one's replay fails. -/
theorem c6_fifo_witness :
    (processQueue
        (fun r => if r.url = "u2" then .netErr "down"
                  else .response true 200 (.ok .jnull))
        ([⟨"u1", some "POST", none, []⟩] ++
          ⟨"u2", some "POST", none, []⟩ :: [⟨"u3", some "POST", none, []⟩])).map
        Prod.fst
      = [⟨"u1", some "POST", none, []⟩] ++
          ⟨"u2", some "POST", none, []⟩ :: [⟨"u3", some "POST", none, []⟩]
    ∧ processQueue
        (fun r => if r.url = "u2" then .netErr "down"
                  else .response true 200 (.ok .jnull))
        ([⟨"u1", some "POST", none, []⟩] ++
          ⟨"u2", some "POST", none, []⟩ :: [⟨"u3", some "POST", none, []⟩])
      = processQueue
          (fun r => if r.url = "u2" then .netErr "down"
                    else .response true 200 (.ok .jnull))
          [⟨"u1", some "POST", none, []⟩] ++
          (⟨"u2", some "POST", none, []⟩, .error "down") ::
            processQueue
              (fun r => if r.url = "u2" then .netErr "down"
                        else .response true 200 (.ok .jnull))
              [⟨"u3", some "POST", none, []⟩] :=
  c6_fifo_isolated_failure
    (fun r => if r.url = "u2" then .netErr "down"
              else .response true 200 (.ok .jnull))
    [⟨"u1", some "POST", none, []⟩] [⟨"u3", some "POST", none, []⟩]
    ⟨"u2", some "POST", none, []⟩ "down" rfl

/-! ### Claim C7 -/

/-- Claim C7: a login whose authenticate response carries a non-empty token
and a truthy user record ends with durable storage holding exactly that
token and the serialized user, the Resource Client's installed token equal
to it, an authenticated session holding that user, and a success result. -/
theorem c7_login_success (w : World) (t : String) (u : JSVal)
    (ht : ¬ t = "") (hu : truthy u = true) :
    login w (.ok (.jobj [("token", .jstr t), ("user", u)]))
      = { world := { storage := { token := some t, user := some (stringify u) }
                     apiKey := t
                     session := { isAuthenticated := true
                                  user := some u
                                  error := none } }
          success := true
          error := none } := by
  unfold login
  simp [getField, List.lookup, ht, hu]

/-- Witness for `c7_login_success`: the spec's scenario — response
`{token: "abc", user: {username: "t"}}` leaves storage holding token
`"abc"` and the serialized user, with the session authenticated. -/
theorem c7_login_witness :
    login initialWorld
        (.ok (.jobj [("token", .jstr "abc"),
          ("user", .jobj [("username", .jstr "t")])]))
      = { world := { storage :=
                       { token := some "abc"
                         user := some (stringify (.jobj [("username", .jstr "t")])) }
                     apiKey := "abc"
                     session := { isAuthenticated := true
                                  user := some (.jobj [("username", .jstr "t")])
                                  error := none } }
          success := true
          error := none } :=
  c7_login_success initialWorld "abc" (.jobj [("username", .jstr "t")])
    (by decide) rfl

/-! ### Claim C8 -/

/-- Claim C8 (counterexample): a list call that resolves to a non-success
envelope on a local/dev client with no token does NOT return the mock
dataset: `getProducts` wraps the envelope itself as
`{success: true, products: <envelope>}` (mock data is served only when the
request throws). -/
theorem c8_counterexample :
    getProducts (initialClientState none none true) []
        (fun _ => .ok (.jobj [("success", .jbool false), ("error", .jstr "boom")]))
        "T"
      = .value (.jobj [("success", .jbool true),
          ("products", .jobj [("success", .jbool false), ("error", .jstr "boom")])])
    ∧ .value (.jobj [("success", .jbool true),
        ("products", .jobj [("success", .jbool false), ("error", .jstr "boom")])])
      ≠ CallOut.value (getMockProducts "T") := by
  refine ⟨rfl, ?_⟩
  intro hEq
  simp [getMockProducts] at hEq

/-- Claim C8 (amended): for every client configuration, a list response
that resolves on the first attempt to a value with a falsy `success` field
is returned wrapped as `{success: true, products: <value>}` — no exception
escapes, but the mock dataset is not substituted. -/
theorem c8_nonsuccess_wrapped (url key : Option String)
    (filters : List (String × String)) (oracle : Nat → FetchOutcome)
    (resp : JSVal) (now : String)
    (h1 : oracle 1 = .ok resp)
    (hns : truthy (getFieldD resp "success") = false) :
    getProducts (initialClientState url key true) filters oracle now
      = .value (.jobj [("success", .jbool true), ("products", resp)]) := by
  simp only [getProducts, makeRequest, initialClientState, Bool.not_true,
    Bool.false_and, Bool.false_eq_true, if_false]
  simp [runAttempts, h1, hns]

/-- Witness for `c8_nonsuccess_wrapped` at a localhost/no-token client
receiving a `{success: false}` envelope. -/
theorem c8_wrapped_witness :
    getProducts (initialClientState none none true) []
        (fun _ => .ok (.jobj [("success", .jbool false)])) "T"
      = .value (.jobj [("success", .jbool true),
          ("products", .jobj [("success", .jbool false)])]) :=
  c8_nonsuccess_wrapped none none []
    (fun _ => .ok (.jobj [("success", .jbool false)]))
    (.jobj [("success", .jbool false)]) "T" rfl rfl

/-! ### Claim C9 -/

/-- Claim C9: the submitted quote total is recomputed at submit time as the
sum over the form's line items of `quantity × unitPrice`, overriding any
stale `total` in the form state (the payload is identical for every value
of the stale field); line items `[{quantity: 2, unitPrice: 10},
{quantity: 1, unitPrice: 5}]` yield a submitted total of 25. -/
theorem c9_total_recomputed (form : QuoteForm) (stale : Option Rat) :
    (buildQuoteData { form with staleTotal := stale }).total
      = computeTotal form.lineItems
    ∧ buildQuoteData { form with staleTotal := stale } = buildQuoteData form
    ∧ (buildQuoteData
        { title := "Q", customerId := "1", status := "Draft",
          validUntil := "2024-12-31",
          lineItems := [⟨none, "Item A", 2, 10⟩, ⟨none, "Item B", 1, 5⟩],
          staleTotal := some 9999 }).total = 25 := by
  refine ⟨rfl, rfl, ?_⟩
  simp [buildQuoteData, computeTotal]
  norm_num

/-! ### Claim C10 -/

/-- Claim C10: during queue drain a replayed request's handle is resolved
with the parsed body whenever the fetch and the body parse succeed — the
response's `ok` flag and status are never consulted (the first conjunct
holds for every `ok`/`status`, including non-2xx) and there is no retry —
and the handle is rejected exactly when the fetch itself or the body parse
throws. -/
theorem c10_replay_resolution (fetchFn : QueuedReq → ReplayFetch)
    (q : QueuedReq) (qs : List QueuedReq) (ok : Bool) (status : Nat)
    (data : JSVal) (h : fetchFn q = .response ok status (.ok data)) :
    processQueue fetchFn (q :: qs) = (q, .ok data) :: processQueue fetchFn qs
    ∧ ∀ (r : ReplayFetch) (e : String),
        settleReplay r = .error e ↔
          (r = .netErr e ∨ ∃ ok2 status2, r = .response ok2 status2 (.error e)) := by
  constructor
  · simp [processQueue, h, settleReplay]
  · intro r e
    cases r with
    | netErr m => simp [settleReplay]
    | response ok2 st2 body =>
      cases body with
      | ok d => simp [settleReplay]
      | error m => simp [settleReplay]

/-- Witness for `c10_replay_resolution`: a replayed request answered with an
HTTP 500 (`ok = false`) whose body still parses is resolved with that body. -/
theorem c10_replay_witness :
    processQueue (fun _ => .response false 500 (.ok (.jstr "body")))
        [⟨"u", some "POST", none, []⟩]
      = (⟨"u", some "POST", none, []⟩, .ok (.jstr "body")) ::
          processQueue (fun _ => .response false 500 (.ok (.jstr "body"))) [] :=
  (c10_replay_resolution (fun _ => .response false 500 (.ok (.jstr "body")))
    ⟨"u", some "POST", none, []⟩ [] false 500 (.jstr "body") rfl).1

end VisualErp
